import Mathlib

/-!
Shallow embedding of the system76-firmware daemon core (src/main.rs).

The functions `firmware_id`, `remove_dir`, `download`, `extract`,
`schedule` and `unschedule` are translated from src/main.rs.  The
modules they call (`bios`, `ec`, `boot`, `util`, `download::Cache`,
the `tempdir` scratch directory and the `fs` rename/remove primitives)
are not part of the given source tree; their observable outcomes are
supplied as oracle fields of environment records, and their effect on
the machine state is modelled from the spec (BootFlag, ArmedUpdate,
StagingDirectory).
-/

namespace Sys76

/-- Contents of a staged update directory: whether the updater payload has
been extracted at its root, and whether the `firmware/` subdirectory has
been populated with the firmware payload. -/
structure Dir where
  updater : Bool
  firmware : Bool
deriving DecidableEq, Repr

/-- Modelled from the spec: the externally observable machine state touched
by `schedule` and `unschedule` — the fixed ArmedUpdate path
`/boot/efi/system76-firmware-update` (`none` when absent), the ephemeral
StagingDirectory, and the BootFlag maintained by the missing `boot` module
(`set_next_boot` / `unset_next_boot`). -/
structure State where
  fixed : Option Dir
  staging : Option Dir
  bootFlag : Bool
deriving DecidableEq, Repr

/-- A manifest as parsed from manifest.json: a `files` mapping from logical
file name to content digest (src/main.rs uses `manifest.files.get`). -/
structure Manifest where
  files : List (String × String)
deriving DecidableEq, Repr

/-- Byte blobs returned by the content cache. -/
abbrev Bytes := List Nat

/-- The fixed ArmedUpdate path used throughout src/main.rs. -/
def updaterDirPath : String := "/boot/efi/system76-firmware-update"

/-- The fixed updater payload file name used by `download` and `schedule`. -/
def updaterFileName : String := "system76-firmware-update.tar.xz"

/-- The manifest lookup expression of src/main.rs (`download` lines 79 and 85,
`extract` line 99): `manifest.files.get(file).ok_or(format!("{} not found", file))`. -/
def lookupFile (m : Manifest) (file : String) : Except String String :=
  match m.files.lookup file with
  | some d => Except.ok d
  | none => Except.error (file ++ " not found")

/-- Modelled from the spec: outcomes of the hardware identity collaborators
missing from the source tree — `bios::bios()` (fallible), the total
`ec::ec_or_none(true)` project name, and the `util::sha256` content hash. -/
structure HwEnv where
  bios : Except String (String × String)
  ecProject : String
  sha256 : String → String

/-- src/main.rs `firmware_id`: read the BIOS model (fallible), hash the
embedded-controller project name (infallible), and concatenate. -/
def firmware_id (hw : HwEnv) : Except String String :=
  match hw.bios with
  | Except.error e => Except.error e
  | Except.ok (bios_model, _bios_version) =>
      let ec_hash := hw.sha256 hw.ecProject
      Except.ok (bios_model ++ "_" ++ ec_hash)

/-- src/main.rs `remove_dir`: if the path exists, attempt `fs::remove_dir_all`
(outcome supplied by the oracle `fsRemove`), wrapping a failure in
`failed to remove <path>: <err>`; if the path does not exist, succeed without
attempting any deletion.  Returns the result together with whether the
directory still exists afterwards. -/
def remove_dir (path : String) (fsRemove : Except String Unit) (dirExists : Bool) :
    Except String Unit × Bool :=
  match dirExists with
  | true =>
    match fsRemove with
    | Except.ok () => (Except.ok (), false)
    | Except.error err =>
        (Except.error ("failed to remove " ++ path ++ ": " ++ err), true)
  | false =>
    (Except.ok (), false)

/-- Modelled from the spec: outcomes of the content cache used by `extract`
(`download::Cache::new(config::CACHE, None)`, `cache.object`), of manifest
parsing, and of the full-tree `util::extract` — all code missing from the
source tree. -/
structure CacheEnv where
  cacheNew : Except String Unit
  object : String → Except String Bytes
  parse : Bytes → Except String Manifest
  utilExtract : Bytes → String → Except String Unit

/-- src/main.rs `extract`: open the cache, fetch and parse the manifest named
by `digest`, look `file` up in it, fetch the blob, and extract it to `path`,
wrapping an extraction failure in `failed to extract <file> to <path>: <err>`. -/
def extract (c : CacheEnv) (digest file path : String) : Except String Unit :=
  match c.cacheNew with
  | Except.error e => Except.error e
  | Except.ok () =>
    match c.object digest with
    | Except.error e => Except.error e
    | Except.ok manifest_json =>
      match c.parse manifest_json with
      | Except.error e => Except.error e
      | Except.ok manifest =>
        match lookupFile manifest file with
        | Except.error e => Except.error e
        | Except.ok d =>
          match c.object d with
          | Except.error e => Except.error e
          | Except.ok data =>
            match c.utilExtract data path with
            | Except.ok () => Except.ok ()
            | Except.error err =>
                Except.error ("failed to extract " ++ file ++ " to " ++ path
                  ++ ": " ++ err)

/-- Modelled from the spec: the oracle outcomes of every external collaborator
consulted by `schedule` and `unschedule` — hardware identity, the presence of
`/sys/firmware/efi`, the `boot` module flag toggles, the `fs` removal outcome
at the fixed path, scratch-directory creation (`tempdir::TempDir::new_in`,
returning the scratch path), the content cache, the best-effort removal
performed by the scratch directory guard on early error exits, the
`fs::rename` commit, and the `fs` removal outcome for the scratch directory
after a failed rename. -/
structure Env where
  hw : HwEnv
  efiExists : Bool
  unsetNextBoot : Except String Unit
  setNextBoot : Except String Unit
  removeFixedFs : Except String Unit
  tempDirCreate : Except String String
  cache : CacheEnv
  tempDropOk : Bool
  rename : Except String Unit
  removeStagingFs : Except String Unit

/-- src/main.rs `schedule`: resolve the firmware identity, require UEFI boot,
unset the boot flag, remove any existing ArmedUpdate directory, create a
scratch directory next to the fixed path, extract the updater payload into
its root and the firmware payload into its `firmware/` subdirectory (any
failure drops the scratch directory best-effort), atomically rename the
scratch directory to the fixed path (on failure best-effort remove the
scratch directory and return the error), then set the boot flag. -/
def schedule (env : Env) (digest : String) (s : State) :
    Except String Unit × State :=
  match firmware_id env.hw with
  | Except.error e => (Except.error e, s)
  | Except.ok fid =>
    match env.efiExists with
    | false => (Except.error "must be run using UEFI boot", s)
    | true =>
      let firmware_file := fid ++ ".tar.xz"
      match env.unsetNextBoot with
      | Except.error e => (Except.error e, s)
      | Except.ok () =>
        let s1 : State := { s with bootFlag := false }
        match remove_dir updaterDirPath env.removeFixedFs s1.fixed.isSome with
        | (Except.error e, ex) =>
            (Except.error e, { s1 with fixed := cond ex s1.fixed none })
        | (Except.ok (), ex) =>
          let s2 : State := { s1 with fixed := cond ex s1.fixed none }
          match env.tempDirCreate with
          | Except.error err =>
              (Except.error ("failed to create temporary directory: " ++ err), s2)
          | Except.ok tmpPath =>
            let s3 : State := { s2 with staging := some ⟨false, false⟩ }
            match extract env.cache digest updaterFileName tmpPath with
            | Except.error e =>
                (Except.error e,
                 { s3 with staging := cond env.tempDropOk none s3.staging })
            | Except.ok () =>
              let s4 : State := { s3 with staging := some ⟨true, false⟩ }
              match extract env.cache digest firmware_file (tmpPath ++ "/firmware") with
              | Except.error e =>
                  (Except.error e,
                   { s4 with staging := cond env.tempDropOk none s4.staging })
              | Except.ok () =>
                let s5 : State := { s4 with staging := some ⟨true, true⟩ }
                match env.rename with
                | Except.error err =>
                  let r := remove_dir tmpPath env.removeStagingFs true
                  (Except.error ("failed to move " ++ tmpPath ++ " to "
                      ++ updaterDirPath ++ ": " ++ err),
                   { s5 with staging := cond r.2 s5.staging none })
                | Except.ok () =>
                  let s6 : State := { s5 with fixed := s5.staging, staging := none }
                  match env.setNextBoot with
                  | Except.error e => (Except.error e, s6)
                  | Except.ok () => (Except.ok (), { s6 with bootFlag := true })

/-- src/main.rs `unschedule`: unset the boot flag (propagating a failure
immediately with the error-propagation operator), then remove the fixed
ArmedUpdate directory if present. -/
def unschedule (env : Env) (s : State) : Except String Unit × State :=
  match env.unsetNextBoot with
  | Except.error e => (Except.error e, s)
  | Except.ok () =>
    let s1 : State := { s with bootFlag := false }
    match remove_dir updaterDirPath env.removeFixedFs s1.fixed.isSome with
    | (Except.error e, ex) =>
        (Except.error e, { s1 with fixed := cond ex s1.fixed none })
    | (Except.ok (), ex) =>
        (Except.ok (), { s1 with fixed := cond ex s1.fixed none })

/-- Modelled from the spec: outcomes of the collaborators of `download`
missing from the source tree — `Downloader::new` against the pinned trust
material, `dl.tail()` yielding the authenticated root-pointer digest,
`download::Cache::new(config::CACHE, Some(dl))`, `cache.object`, manifest
parsing, and the single-member `util::extract_file`. -/
structure DlEnv where
  hw : HwEnv
  downloaderNew : Except String Unit
  tail : Except String String
  cacheNew : Except String Unit
  object : String → Except String Bytes
  parse : Bytes → Except String Manifest
  extractFile : Bytes → String → Except String String

/-- src/main.rs `download`: resolve the firmware identity, build the
downloader, fetch the root-pointer digest, open the cache, fetch and parse
the manifest, fetch the updater payload through the cache (its bytes are
discarded), fetch the identity-specific firmware payload, extract
`./changelog.json` from it, and return the root digest with the changelog. -/
def download (env : DlEnv) : Except String (String × String) :=
  match firmware_id env.hw with
  | Except.error e => Except.error e
  | Except.ok fid =>
    match env.downloaderNew with
    | Except.error e => Except.error e
    | Except.ok () =>
      match env.tail with
      | Except.error e => Except.error e
      | Except.ok tailDigest =>
        match env.cacheNew with
        | Except.error e => Except.error e
        | Except.ok () =>
          match env.object tailDigest with
          | Except.error e => Except.error e
          | Except.ok manifest_json =>
            match env.parse manifest_json with
            | Except.error e => Except.error e
            | Except.ok manifest =>
              match lookupFile manifest updaterFileName with
              | Except.error e => Except.error e
              | Except.ok udigest =>
                match env.object udigest with
                | Except.error e => Except.error e
                | Except.ok _updater_data =>
                  match lookupFile manifest (fid ++ ".tar.xz") with
                  | Except.error e => Except.error e
                  | Except.ok fdigest =>
                    match env.object fdigest with
                    | Except.error e => Except.error e
                    | Except.ok firmware_data =>
                      match env.extractFile firmware_data "./changelog.json" with
                      | Except.error e => Except.error e
                      | Except.ok changelog =>
                          Except.ok (tailDigest, changelog)

/-! Concrete environments used to instantiate the theorems below. -/

/-- A hardware environment whose BIOS read succeeds with model `x` and whose
embedded-controller hash is `H`. -/
def hwOk : HwEnv := ⟨Except.ok ("x", "v"), "", fun _ => "H"⟩

/-- A cache environment in which every step succeeds; the manifest maps both
the updater payload name and the firmware payload name `x_H.tar.xz`. -/
def cacheOk : CacheEnv :=
  ⟨Except.ok (), fun _ => Except.ok [],
   fun _ => Except.ok ⟨[("system76-firmware-update.tar.xz", "d1"),
                        ("x_H.tar.xz", "d2")]⟩,
   fun _ _ => Except.ok ()⟩

/-- A fully successful scheduler environment. -/
def envOk : Env :=
  ⟨hwOk, true, Except.ok (), Except.ok (), Except.ok (),
   Except.ok "/boot/efi/tmp0", cacheOk, true, Except.ok (), Except.ok ()⟩

/-- The environment `envOk` except that opening the content cache fails. -/
def envX : Env :=
  { envOk with cache := { cacheOk with cacheNew := Except.error "cache gone" } }

/-- The environment `envOk` except that the commit rename fails. -/
def envR : Env := { envOk with rename := Except.error "cross-device link" }

/-- The environment `envOk` except that no UEFI boot environment is present. -/
def env4 : Env := { envOk with efiExists := false }

/-- An environment where the BIOS read fails and UEFI is also absent. -/
def env9 : Env :=
  { envOk with hw := ⟨Except.error "bios read failed", "", fun _ => "H"⟩,
               efiExists := false }

/-- The environment `envOk` except that unsetting the boot flag fails. -/
def envU : Env := { envOk with unsetNextBoot := Except.error "unset failed" }

/-- The empty machine state: nothing staged, nothing armed, flag clear. -/
def st0 : State := ⟨none, none, false⟩

/-- A state with an armed update present and the boot flag set. -/
def stA : State := ⟨some ⟨true, true⟩, none, true⟩

/-- A manifest holding only `a.tar.xz`. -/
def mA : Manifest := ⟨[("a.tar.xz", "D1")]⟩

/-- A download environment whose manifest lacks the updater payload name. -/
def envD : DlEnv :=
  ⟨hwOk, Except.ok (), Except.ok "T", Except.ok (),
   fun _ => Except.ok [], fun _ => Except.ok mA, fun _ _ => Except.ok "log"⟩

/-! Helper lemmas shared by the claim theorems. -/

/-- When the underlying filesystem removal succeeds, `remove_dir` succeeds
and the directory is gone, whether or not it existed. -/
theorem remove_dir_fs_ok (p : String) (ex : Bool) :
    remove_dir p (Except.ok ()) ex = (Except.ok (), false) := by
  cases ex <;> rfl

/-- A successful BIOS read determines the firmware identity. -/
theorem firmware_id_ok (hw : HwEnv) (m v : String)
    (h : hw.bios = Except.ok (m, v)) :
    firmware_id hw = Except.ok (m ++ "_" ++ hw.sha256 hw.ecProject) := by
  unfold firmware_id
  rw [h]

/-- A failed BIOS read is propagated by `firmware_id`. -/
theorem firmware_id_err (hw : HwEnv) (e : String)
    (h : hw.bios = Except.error e) :
    firmware_id hw = Except.error e := by
  unfold firmware_id
  rw [h]

/-- A name absent from the `files` mapping makes `lookupFile` fail. -/
theorem lookupFile_none_eq (m : Manifest) (name : String)
    (h : m.files.lookup name = none) :
    lookupFile m name = Except.error (name ++ " not found") := by
  unfold lookupFile
  rw [h]

/-- A name present in the `files` mapping makes `lookupFile` return its digest. -/
theorem lookupFile_some_eq (m : Manifest) (name d : String)
    (h : m.files.lookup name = some d) :
    lookupFile m name = Except.ok d := by
  unfold lookupFile
  rw [h]

/-! Claim theorems. -/

/-- C5: for every manifest and every file name absent from its `files`
mapping, the lookup performed by `download` and `extract` fails with the
error `<name> not found` and never returns a digest. -/
theorem lookupFile_absent (m : Manifest) (name : String)
    (h : m.files.lookup name = none) :
    lookupFile m name = Except.error (name ++ " not found") ∧
    ∀ d, lookupFile m name ≠ Except.ok d := by
  refine ⟨lookupFile_none_eq m name h, fun d hc => ?_⟩
  rw [lookupFile_none_eq m name h] at hc
  exact Except.noConfusion hc

/-- C5 witness: in the manifest holding only `a.tar.xz`, looking up
`b.tar.xz` fails with `b.tar.xz not found`. -/
theorem lookupFile_absent_w :
    lookupFile mA "b.tar.xz" = Except.error ("b.tar.xz" ++ " not found") ∧
    ∀ d, lookupFile mA "b.tar.xz" ≠ Except.ok d :=
  lookupFile_absent mA "b.tar.xz" (by decide)

/-- C8: when the BIOS model is readable, `firmware_id` returns exactly
`{bios_model}_{hash(ec_project_name)}`; the embedded-controller read is
total, so it never causes a failure; a BIOS read failure is propagated; and
the computation is deterministic, so two calls on an unchanged host agree. -/
theorem firmware_id_spec (hw : HwEnv) :
    (∀ m v, hw.bios = Except.ok (m, v) →
        firmware_id hw = Except.ok (m ++ "_" ++ hw.sha256 hw.ecProject)) ∧
    (∀ e, hw.bios = Except.error e → firmware_id hw = Except.error e) ∧
    firmware_id hw = firmware_id hw :=
  ⟨fun m v h => firmware_id_ok hw m v h,
   fun e h => firmware_id_err hw e h, rfl⟩

/-- C8 witness: on the concrete host `hwOk` the identity is `x_H`. -/
theorem firmware_id_spec_w :
    firmware_id hwOk = Except.ok ("x" ++ "_" ++ "H") :=
  (firmware_id_spec hwOk).1 "x" "v" rfl

/-- C7: `unschedule` with nothing staged succeeds, leaves the fixed path
absent and clears the boot flag, for every outcome of the filesystem
removal oracle — the deletion primitive is never consulted on an absent
directory. -/
theorem unschedule_noop (env : Env) (s : State)
    (hu : env.unsetNextBoot = Except.ok ()) (hf : s.fixed = none) :
    unschedule env s = (Except.ok (), { s with bootFlag := false }) ∧
    (unschedule env s).2.fixed = none := by
  obtain ⟨f, st, b⟩ := s
  cases hf
  unfold unschedule
  rw [hu]
  exact ⟨rfl, rfl⟩

/-- C7 witness: `unschedule` on the empty state with the flag set. -/
theorem unschedule_noop_w :
    unschedule envOk ⟨none, none, true⟩ =
      (Except.ok (), { (⟨none, none, true⟩ : State) with bootFlag := false }) ∧
    (unschedule envOk ⟨none, none, true⟩).2.fixed = none :=
  unschedule_noop envOk ⟨none, none, true⟩ rfl rfl

/-- C3 counterexample: with an armed update present, a failing boot-flag
unset, and a filesystem removal that would succeed, `unschedule` returns the
unset error and leaves the armed directory in place — the removal step is
never attempted, refuting that both steps are attempted independently. -/
theorem unschedule_not_independent :
    unschedule envU stA = (Except.error "unset failed", stA) ∧
    (unschedule envU stA).2.fixed = some ⟨true, true⟩ ∧
    envU.removeFixedFs = Except.ok () :=
  ⟨rfl, rfl, rfl⟩

/-- C3 amended: `unschedule` unsets the boot flag first and, if that fails,
returns the error immediately without attempting the directory removal
(state unchanged); only when the flag is unset successfully does it attempt
the removal and report that removal's result. -/
theorem unschedule_sequential (env : Env) (s : State) :
    (∀ e, env.unsetNextBoot = Except.error e →
        unschedule env s = (Except.error e, s)) ∧
    (env.unsetNextBoot = Except.ok () →
        (unschedule env s).1 =
          (remove_dir updaterDirPath env.removeFixedFs s.fixed.isSome).1 ∧
        (unschedule env s).2.bootFlag = false) := by
  obtain ⟨f, st, b⟩ := s
  constructor
  · intro e he
    unfold unschedule
    rw [he]
  · intro hu
    rcases hr : remove_dir updaterDirPath env.removeFixedFs
        (Option.isSome f) with ⟨r1, ex⟩
    unfold unschedule
    rw [hu]
    dsimp only
    rw [hr]
    cases r1 <;> exact ⟨rfl, rfl⟩

/-- C3 amended witness: the failing-unset case on `envU` and the
successful-unset case on `envOk`, both at the armed state. -/
theorem unschedule_sequential_w :
    unschedule envU stA = (Except.error "unset failed", stA) ∧
    (unschedule envOk stA).1 =
      (remove_dir updaterDirPath envOk.removeFixedFs stA.fixed.isSome).1 ∧
    (unschedule envOk stA).2.bootFlag = false :=
  ⟨(unschedule_sequential envU stA).1 "unset failed" rfl,
   (unschedule_sequential envOk stA).2 rfl⟩

/-- C4: when the BIOS read succeeds but no UEFI boot environment is present,
`schedule` fails with the precondition error and returns the state entirely
unchanged — fixed path, staging and boot flag untouched. -/
theorem schedule_no_efi (env : Env) (digest : String) (s : State)
    (m v : String) (hb : env.hw.bios = Except.ok (m, v))
    (he : env.efiExists = false) :
    schedule env digest s = (Except.error "must be run using UEFI boot", s) := by
  unfold schedule
  rw [firmware_id_ok env.hw m v hb, he]

/-- C4 witness: `schedule` on `env4` (UEFI absent) leaves `stA` unchanged. -/
theorem schedule_no_efi_w :
    schedule env4 "D" stA = (Except.error "must be run using UEFI boot", stA) :=
  schedule_no_efi env4 "D" stA "x" "v" rfl rfl

/-- C9: `schedule` resolves the firmware identity before evaluating the UEFI
precondition: a BIOS read failure is returned as the identity error with the
state entirely unchanged, with no hypothesis on the UEFI precondition. -/
theorem schedule_identity_first (env : Env) (digest : String) (s : State)
    (e : String) (hb : env.hw.bios = Except.error e) :
    schedule env digest s = (Except.error e, s) := by
  unfold schedule
  rw [firmware_id_err env.hw e hb]

/-- C9 witness: on `env9` the UEFI environment is absent, yet `schedule`
returns the BIOS read error, not the precondition error. -/
theorem schedule_identity_first_w :
    schedule env9 "D" stA = (Except.error "bios read failed", stA) ∧
    env9.efiExists = false :=
  ⟨schedule_identity_first env9 "D" stA "bios read failed" rfl, rfl⟩

/-- C1: if extraction of the updater payload or of the firmware payload
fails, `schedule` returns the extraction error, the fixed ArmedUpdate path
does not exist afterwards, the boot flag is unset, and when the scratch
directory guard's best-effort removal succeeds no staging state remains. -/
theorem schedule_extract_fail (env : Env) (digest : String) (s : State)
    (m v tmp e : String)
    (hb : env.hw.bios = Except.ok (m, v))
    (he : env.efiExists = true)
    (hu : env.unsetNextBoot = Except.ok ())
    (hr : env.removeFixedFs = Except.ok ())
    (ht : env.tempDirCreate = Except.ok tmp)
    (hx : extract env.cache digest updaterFileName tmp = Except.error e ∨
          (extract env.cache digest updaterFileName tmp = Except.ok () ∧
           extract env.cache digest
             (m ++ "_" ++ env.hw.sha256 env.hw.ecProject ++ ".tar.xz")
             (tmp ++ "/firmware") = Except.error e)) :
    (schedule env digest s).1 = Except.error e ∧
    (schedule env digest s).2.fixed = none ∧
    (schedule env digest s).2.bootFlag = false ∧
    (env.tempDropOk = true → (schedule env digest s).2.staging = none) := by
  obtain ⟨f, st, b⟩ := s
  unfold schedule
  rw [firmware_id_ok env.hw m v hb, he]
  dsimp only
  rw [hu]
  dsimp only
  rw [hr, remove_dir_fs_ok]
  dsimp only
  rw [ht]
  dsimp only
  rcases hx with hx1 | ⟨hx1, hx2⟩
  · rw [hx1]
    dsimp only
    refine ⟨rfl, rfl, rfl, fun hd => ?_⟩
    rw [hd]
    exact rfl
  · rw [hx1]
    dsimp only
    rw [hx2]
    dsimp only
    refine ⟨rfl, rfl, rfl, fun hd => ?_⟩
    rw [hd]
    exact rfl

/-- C1 witness: on `envX` (cache cannot be opened, so extraction of the
updater payload fails) the error surfaces, the fixed path is absent, the
boot flag is clear and no staging state remains. -/
theorem schedule_extract_fail_w :
    (schedule envX "D" st0).1 = Except.error "cache gone" ∧
    (schedule envX "D" st0).2.fixed = none ∧
    (schedule envX "D" st0).2.bootFlag = false ∧
    (envX.tempDropOk = true → (schedule envX "D" st0).2.staging = none) :=
  schedule_extract_fail envX "D" st0 "x" "v" "/boot/efi/tmp0" "cache gone"
    rfl rfl rfl rfl rfl (Or.inl rfl)

/-- C2: whenever `schedule` succeeds, the fixed ArmedUpdate path exists with
the updater payload at its root and a populated `firmware/` subdirectory,
and the boot flag has been set. -/
theorem schedule_ok_spec (env : Env) (digest : String) (s : State)
    (h : (schedule env digest s).1 = Except.ok ()) :
    (schedule env digest s).2.fixed = some ⟨true, true⟩ ∧
    (schedule env digest s).2.bootFlag = true := by
  rcases hres : schedule env digest s with ⟨r1, r2⟩
  rw [hres] at h
  dsimp only at h ⊢
  unfold schedule at hres
  dsimp only at hres
  repeat' split at hres
  all_goals injection hres with h1 h2
  all_goals subst h1
  all_goals subst h2
  all_goals first
    | exact Except.noConfusion h
    | exact ⟨rfl, rfl⟩

/-- C2 witness: the fully successful environment `envOk` arms the update
and sets the boot flag. -/
theorem schedule_ok_spec_w :
    (schedule envOk "D" st0).2.fixed = some ⟨true, true⟩ ∧
    (schedule envOk "D" st0).2.bootFlag = true :=
  schedule_ok_spec envOk "D" st0 rfl

/-- C6: if the commit rename fails after both extractions succeeded,
`schedule` returns the rename error (whatever the outcome of the best-effort
scratch removal), the boot flag is not set, the fixed path stays absent, and
when the scratch removal succeeds no staging state remains. -/
theorem schedule_rename_fail (env : Env) (digest : String) (s : State)
    (m v tmp err : String)
    (hb : env.hw.bios = Except.ok (m, v))
    (he : env.efiExists = true)
    (hu : env.unsetNextBoot = Except.ok ())
    (hr : env.removeFixedFs = Except.ok ())
    (ht : env.tempDirCreate = Except.ok tmp)
    (hx1 : extract env.cache digest updaterFileName tmp = Except.ok ())
    (hx2 : extract env.cache digest
        (m ++ "_" ++ env.hw.sha256 env.hw.ecProject ++ ".tar.xz")
        (tmp ++ "/firmware") = Except.ok ())
    (hre : env.rename = Except.error err) :
    (schedule env digest s).1 =
      Except.error ("failed to move " ++ tmp ++ " to " ++ updaterDirPath
        ++ ": " ++ err) ∧
    (schedule env digest s).2.bootFlag = false ∧
    (schedule env digest s).2.fixed = none ∧
    (env.removeStagingFs = Except.ok () →
        (schedule env digest s).2.staging = none) := by
  obtain ⟨f, st, b⟩ := s
  unfold schedule
  rw [firmware_id_ok env.hw m v hb, he]
  dsimp only
  rw [hu]
  dsimp only
  rw [hr, remove_dir_fs_ok]
  dsimp only
  rw [ht]
  dsimp only
  rw [hx1]
  dsimp only
  rw [hx2]
  dsimp only
  rw [hre]
  dsimp only
  refine ⟨rfl, rfl, rfl, fun hrs => ?_⟩
  rw [hrs, remove_dir_fs_ok]
  exact rfl

/-- C6 witness: on `envR` the rename fails with `cross-device link`; the
error is wrapped and returned, the boot flag stays clear, and the scratch
directory is removed. -/
theorem schedule_rename_fail_w :
    (schedule envR "D" st0).1 =
      Except.error ("failed to move " ++ "/boot/efi/tmp0" ++ " to "
        ++ updaterDirPath ++ ": " ++ "cross-device link") ∧
    (schedule envR "D" st0).2.bootFlag = false ∧
    (schedule envR "D" st0).2.fixed = none ∧
    (envR.removeStagingFs = Except.ok () →
        (schedule envR "D" st0).2.staging = none) :=
  schedule_rename_fail envR "D" st0 "x" "v" "/boot/efi/tmp0"
    "cross-device link" rfl rfl rfl rfl rfl rfl rfl rfl

/-- C10: `download` fetches the updater payload through the content cache —
an absent manifest entry fails with `system76-firmware-update.tar.xz not
found`, a failing cache fetch of its digest propagates — yet on success the
returned value is only the root-pointer digest and the changelog extracted
from the firmware payload, not the updater payload's bytes. -/
theorem download_updater_lookup (env : DlEnv) (m v t : String) (mj : Bytes)
    (man : Manifest)
    (hb : env.hw.bios = Except.ok (m, v))
    (hd : env.downloaderNew = Except.ok ())
    (htl : env.tail = Except.ok t)
    (hc : env.cacheNew = Except.ok ())
    (ho : env.object t = Except.ok mj)
    (hp : env.parse mj = Except.ok man) :
    (man.files.lookup updaterFileName = none →
        download env = Except.error (updaterFileName ++ " not found")) ∧
    (∀ ud e, man.files.lookup updaterFileName = some ud →
        env.object ud = Except.error e → download env = Except.error e) ∧
    (∀ ud ub fd fb cl,
        man.files.lookup updaterFileName = some ud →
        env.object ud = Except.ok ub →
        man.files.lookup (m ++ "_" ++ env.hw.sha256 env.hw.ecProject
            ++ ".tar.xz") = some fd →
        env.object fd = Except.ok fb →
        env.extractFile fb "./changelog.json" = Except.ok cl →
        download env = Except.ok (t, cl)) := by
  refine ⟨?_, ?_, ?_⟩
  · intro hn
    unfold download
    rw [firmware_id_ok env.hw m v hb]
    dsimp only
    rw [hd]
    dsimp only
    rw [htl]
    dsimp only
    rw [hc]
    dsimp only
    rw [ho]
    dsimp only
    rw [hp]
    dsimp only
    rw [lookupFile_none_eq man updaterFileName hn]
  · intro ud e hsome hoe
    unfold download
    rw [firmware_id_ok env.hw m v hb]
    dsimp only
    rw [hd]
    dsimp only
    rw [htl]
    dsimp only
    rw [hc]
    dsimp only
    rw [ho]
    dsimp only
    rw [hp]
    dsimp only
    rw [lookupFile_some_eq man updaterFileName ud hsome]
    dsimp only
    rw [hoe]
  · intro ud ub fd fb cl hsome hou hfsome hof hcl
    unfold download
    rw [firmware_id_ok env.hw m v hb]
    dsimp only
    rw [hd]
    dsimp only
    rw [htl]
    dsimp only
    rw [hc]
    dsimp only
    rw [ho]
    dsimp only
    rw [hp]
    dsimp only
    rw [lookupFile_some_eq man updaterFileName ud hsome]
    dsimp only
    rw [hou]
    dsimp only
    rw [lookupFile_some_eq man _ fd hfsome]
    dsimp only
    rw [hof]
    dsimp only
    rw [hcl]

/-- C10 witness: on `envD` the manifest lacks the updater payload name, so
`download` fails with `system76-firmware-update.tar.xz not found`. -/
theorem download_updater_lookup_w :
    download envD = Except.error (updaterFileName ++ " not found") :=
  (download_updater_lookup envD "x" "v" "T" [] mA
    rfl rfl rfl rfl rfl rfl).1 rfl

end Sys76
